import Mathlib

/-!
Shallow embedding of the java-app-monitoring repository
(`src/lib/JavaContainerManager.py`, `src/ui/java_container_ui.py`).

The Docker SDK is external I/O, so its outcomes are modelled as explicit
data fed to the embedded functions: a container lookup either finds a
container with a runtime status string, raises NotFound, or raises some
other exception (e.g. the runtime connection cannot be established); an
in-container exec either yields an exit code with output or raises.
Every embedded function is translated from the Python source, branch by
branch.
-/

namespace JavaAppMonitoring

/-- Outcome of `self.docker_client.containers.get(name)`:
either a container object whose `.status` is a runtime status string,
a `docker.errors.NotFound` exception, or any other exception
(connection refused, API error, ...). -/
inductive ContainerLookup where
  | found (status : String)
  | notFound
  | runtimeError (msg : String)
deriving DecidableEq

/-- Outcome of `container.exec_run(cmd)`: either `(exit_code, output)`
or a raised exception (transport error, container not running, ...). -/
inductive ExecOutcome where
  | result (exitCode : Int) (output : String)
  | raisedError (msg : String)
deriving DecidableEq

/-- `JavaContainerManager.__init__` default: `container_name="java-app-persistent"`. -/
def containerName : String := "java-app-persistent"

/-- `JavaContainerManager.get_container_status`: returns `container.status`
on success, `None` on `docker.errors.NotFound`, and `None` again on any
other exception (`except Exception: return None`). -/
def get_container_status (lookup : ContainerLookup) : Option String :=
  match lookup with
  | .found s => some s
  | .notFound => none
  | .runtimeError _ => none

/-- `JavaContainerManager.is_container_running`:
`get_container_status(container_name) == 'running'`. -/
def is_container_running (lookup : ContainerLookup) : Bool :=
  get_container_status lookup == some "running"

/-- `JavaContainerManager.is_java_process_running`: looks the container up,
runs `pgrep -f 'java.*App'` inside it and returns `exit_code == 0`;
`except docker.errors.NotFound: return False`; `except Exception: return False`. -/
def is_java_process_running (lookup : ContainerLookup) (probe : ExecOutcome) : Bool :=
  match lookup with
  | .found _ =>
      match probe with
      | .result exitCode _ => exitCode == 0
      | .raisedError _ => false
  | .notFound => false
  | .runtimeError _ => false

/-- The JSON object persisted by `save_process_state` / read by
`load_process_state` (fields `pid`, `log_file`, `start_time`,
`is_running`, `container_name`). -/
structure ProcessState where
  pid : Option Nat
  log_file : String
  start_time : String
  is_running : Bool
  container_name : String
deriving DecidableEq

/-- `java_app_dir = os.path.join(os.getcwd(), "java_app")`, relative part. -/
def java_app_dir : String := "java_app"

/-- `self.state_file = os.path.join(os.getcwd(), "java_app", "process_state.json")`,
relative part. -/
def state_file : String := "java_app/process_state.json"

/-- Filesystem operations issued by the manager's persistence code. -/
inductive FsOp where
  | makeDirs (dir : String)
  | openTruncateWrite (path : String)
  | writeJson (path : String) (st : ProcessState)
  | rename (src dst : String)
  | removeFile (path : String)
deriving DecidableEq

/-- `JavaContainerManager.save_process_state(pid, log_file, start_time,
is_running, container_name=None)` as the sequence of filesystem operations
it performs: `os.makedirs(dirname, exist_ok=True)`, then
`open(self.state_file, 'w')` (truncating the live file in place) and
`json.dump({...}, f)` into it. The default `container_name or
self.container_name` is the `Option.getD`. -/
def save_process_state_ops (pid : Option Nat) (log_file start_time : String)
    (is_running : Bool) (container_name : Option String) : List FsOp :=
  [FsOp.makeDirs java_app_dir,
   FsOp.openTruncateWrite state_file,
   FsOp.writeJson state_file
     ⟨pid, log_file, start_time, is_running, container_name.getD containerName⟩]

/-- Whether a trace of filesystem operations performs any rename (the
ingredient a write-to-temp-then-rename atomic replace would need). -/
def uses_rename (ops : List FsOp) : Bool :=
  ops.any fun op =>
    match op with
    | .rename _ _ => true
    | _ => false

/-- What the state file on disk can hold when it is read back:
missing, present but unparseable (e.g. a partial write), or a valid
JSON snapshot. -/
inductive FileContent where
  | absent
  | corrupt
  | valid (st : ProcessState)
deriving DecidableEq

/-- `JavaContainerManager.load_process_state`: returns `None` when the file
does not exist, `None` when parsing raises (`except: return None`), and
the parsed object otherwise. -/
def load_process_state (file : FileContent) : Option ProcessState :=
  match file with
  | .absent => none
  | .corrupt => none
  | .valid st => some st

/-- `JavaContainerManager.clear_process_state`: removes the state file if
it exists; afterwards the file is absent. -/
def clear_process_state (_file : FileContent) : FileContent :=
  FileContent.absent

/-- `JavaContainerManager.stop_java_app`: looks the container up and issues
`exec_run("pkill -9 java", detach=True)`, returning
`(True, "Application stopped")`; any exception (lookup failure or exec
failure, modelled by `killExecErr`) is caught and turned into
`(False, "Failed to stop: ...")`. -/
def stop_java_app (lookup : ContainerLookup) (killExecErr : Option String) :
    Bool × String :=
  match lookup with
  | .found _ =>
      match killExecErr with
      | none => (true, "Application stopped")
      | some m => (false, "Failed to stop: " ++ m)
  | .notFound => (false, "Failed to stop: 404 container not found")
  | .runtimeError m => (false, "Failed to stop: " ++ m)

/-- Outcome of `self.docker_client.images.build(...)` inside `build_image`. -/
inductive BuildOutcome where
  | success
  | buildError (msg : String)
  | otherError (msg : String)
deriving DecidableEq

/-- `JavaContainerManager.build_image`: `(True, "Image built successfully")`
on success, `(False, "Build Error: ...")` on `docker.errors.BuildError`,
`(False, "Unexpected error: ...")` on any other exception. -/
def build_image (outcome : BuildOutcome) : Bool × String :=
  match outcome with
  | .success => (true, "Image built successfully")
  | .buildError m => (false, "Build Error: " ++ m)
  | .otherError m => (false, "Unexpected error: " ++ m)

/-- The arguments of the `containers.run("java-dummy-app", ...)` call in
`get_or_create_container`: image, name, environment
`{LOG_MESSAGE, ITERATIONS}` and the single volume binding
`{host_log_file: {'bind': '/app/app.log', 'mode': 'rw'}}`. -/
structure CreateSpec where
  image : String
  name : String
  envLogMessage : String
  envIterations : String
  bindHostPath : String
  bindTargetPath : String
  bindMode : String
deriving DecidableEq

/-- What `get_or_create_container` does: returns a `(container, tag)` pair
(`create` records the `containers.run` arguments when a container was
created), falls off the end of the function returning Python `None`, or
lets an exception escape (only `docker.errors.NotFound` is caught). -/
inductive ResolveResult where
  | ok (tag : String) (create : Option CreateSpec)
  | fallThroughNone
  | raised (msg : String)
deriving DecidableEq

/-- `JavaContainerManager.get_or_create_container(log_message, iterations,
host_log_file)`: looks the container up by `self.container_name`;
if `container.status == 'running'` return `(container, "reused")`;
`elif container.status == 'exited'` start it and return
`(container, "started")`; any other status falls through (implicit
`return None`); on `docker.errors.NotFound` it calls `containers.run`
(detached, env `{LOG_MESSAGE: log_message, ITERATIONS: str(iterations)}`,
bind-mount of `host_log_file` at `/app/app.log` mode `rw`) and returns
`(container, "created")`; `createErr` models `containers.run` raising,
which no handler catches; a lookup exception other than NotFound also
escapes. -/
def get_or_create_container (lookup : ContainerLookup) (log_message : String)
    (iterations : Int) (host_log_file : String) (createErr : Option String) :
    ResolveResult :=
  match lookup with
  | .found s =>
      if s = "running" then ResolveResult.ok "reused" none
      else if s = "exited" then ResolveResult.ok "started" none
      else ResolveResult.fallThroughNone
  | .notFound =>
      match createErr with
      | none =>
          ResolveResult.ok "created"
            (some ⟨"java-dummy-app", containerName, log_message,
                   toString iterations, host_log_file, "/app/app.log", "rw"⟩)
      | some m => ResolveResult.raised m
  | .runtimeError m => ResolveResult.raised m

/-- `JavaContainerManager.execute_java_app`: `exec_run("java -cp /app App",
detach=True, environment={...})` then `(True, "Java app started")`; any
exception is caught and returned as `(False, "Failed to execute: ...")`. -/
def execute_java_app (execErr : Option String) : Bool × String :=
  match execErr with
  | none => (true, "Java app started")
  | some m => (false, "Failed to execute: " ++ m)

/-- The spec's three-valued ContainerStatus abstraction
`{Absent, Stopped, Running}`. -/
inductive ContainerStatus where
  | absent
  | stopped
  | running
deriving DecidableEq

/-- The lookup outcome each of the three abstract statuses stands for in
the runtime: `Running` is status string `"running"`, `Stopped` is the
runtime's `"exited"`, `Absent` is NotFound. -/
def tri_lookup (cs : ContainerStatus) : ContainerLookup :=
  match cs with
  | .running => ContainerLookup.found "running"
  | .stopped => ContainerLookup.found "exited"
  | .absent => ContainerLookup.notFound

/-- The presentation layer's per-session mutable state
(`st.session_state.process_pid / is_running / log_file / start_time /
container_name` in `java_container_ui.py`). -/
structure SessionState where
  process_pid : Option Nat
  is_running : Bool
  log_file : Option String
  start_time : Option String
  container_name : String
deriving DecidableEq

/-- `_initialize_session_state(manager)` on a fresh controller instance
(`'process_pid' not in st.session_state`): load the persisted file; if a
state was read, copy its fields into the session; otherwise start with
`process_pid=None, is_running=False, log_file=None, start_time=None,
container_name=manager.container_name`. -/
def init_session_state (file : FileContent) : SessionState :=
  match load_process_state file with
  | some st => ⟨st.pid, st.is_running, some st.log_file, some st.start_time,
                st.container_name⟩
  | none => ⟨none, false, none, none, containerName⟩

/-- Ground truth fetched during one `_render_running_state` cycle:
`is_container_running` performs its own `containers.get`
(`statusLookup`), and `is_java_process_running` performs another
(`probeLookup`) followed by the `pgrep` exec (`probeExec`). -/
structure GroundTruth where
  statusLookup : ContainerLookup
  probeLookup : ContainerLookup
  probeExec : ExecOutcome
deriving DecidableEq

/-- What one read cycle of `render_java_container_section` displays:
the `st.warning` container-gone branch, the `st.success` completed
branch, the `st.info` running branch, or the else branch taken when no
run is believed active. -/
inductive CycleReport where
  | containerNotRunningWarning
  | completedSuccess
  | runningInfo
  | noActiveRun
deriving DecidableEq

/-- Both terminal branches of `_render_running_state` end the run the same
way (belief set to False, persisted state cleared, final logs shown):
they are the spec's `Completed` report, rendered with two different
banners. -/
def is_completion_report (r : CycleReport) : Bool :=
  match r with
  | .containerNotRunningWarning => true
  | .completedSuccess => true
  | _ => false

/-- Result of one read cycle: the session state left behind, the persisted
file left behind, and what was reported. -/
structure CycleResult where
  session : SessionState
  file : FileContent
  report : CycleReport
deriving DecidableEq

/-- `_render_running_state(manager)`: first re-check
`manager.is_container_running(container_name)`; if it fails, warn, set
`is_running = False` and `clear_process_state()`; `elif not
manager.is_java_process_running(container_name)`, report completion, set
`is_running = False` and `clear_process_state()`; else report the run as
active and keep everything. -/
def render_running_state (ss : SessionState) (gt : GroundTruth)
    (file : FileContent) : CycleResult :=
  if !is_container_running gt.statusLookup then
    ⟨{ ss with is_running := false }, clear_process_state file,
      CycleReport.containerNotRunningWarning⟩
  else if !is_java_process_running gt.probeLookup gt.probeExec then
    ⟨{ ss with is_running := false }, clear_process_state file,
      CycleReport.completedSuccess⟩
  else
    ⟨ss, file, CycleReport.runningInfo⟩

/-- The status part of `render_java_container_section`: `if
st.session_state.is_running and st.session_state.container_name:` run
`_render_running_state`; `else` set `is_running = False` and
`clear_process_state()` (string truthiness is non-emptiness). -/
def render_cycle (ss : SessionState) (gt : GroundTruth)
    (file : FileContent) : CycleResult :=
  if ss.is_running && ss.container_name != "" then
    render_running_state ss gt file
  else
    ⟨{ ss with is_running := false }, clear_process_state file,
      CycleReport.noActiveRun⟩

/-- Controller initialization followed by one poll cycle: a fresh instance
reads the persisted file (`_initialize_session_state`) and the very next
render reconciles against ground truth. -/
def fresh_poll (file : FileContent) (gt : GroundTruth) : CycleResult :=
  render_cycle (init_session_state file) gt file

/-- `_render_stop_button(manager)` when the button is pressed: call
`manager.stop_java_app(container_name)`; on success set
`is_running = False`, `clear_process_state()` and show the success
message; on failure only `st.error(message)` is shown. The returned
`Bool` is whether the success path ran. -/
def render_stop_button (ss : SessionState) (file : FileContent)
    (lookup : ContainerLookup) (killExecErr : Option String) :
    SessionState × FileContent × Bool :=
  match stop_java_app lookup killExecErr with
  | (true, _) => ({ ss with is_running := false }, clear_process_state file, true)
  | (false, _) => (ss, file, false)

/-- Gateway operations a launch attempt issues against the runtime, with
the data each carries. -/
inductive GatewayOp where
  | buildImage (dir tag : String)
  | getByName (name : String)
  | createRun (spec : CreateSpec)
  | startExisting (name : String)
  | execDetachedJava (envLogMessage envIterations : String)
deriving DecidableEq

/-- The runtime calls `get_or_create_container` issues: always the
`containers.get`; `container.start()` when the status was `'exited'`;
`containers.run` (with its full argument record) when the lookup raised
NotFound. -/
def resolve_ops (lookup : ContainerLookup) (log_message : String)
    (iterations : Int) (host_log_file : String) : List GatewayOp :=
  match lookup with
  | .found s =>
      if s = "exited" then
        [GatewayOp.getByName containerName, GatewayOp.startExisting containerName]
      else
        [GatewayOp.getByName containerName]
  | .notFound =>
      [GatewayOp.getByName containerName,
       GatewayOp.createRun ⟨"java-dummy-app", containerName, log_message,
         toString iterations, host_log_file, "/app/app.log", "rw"⟩]
  | .runtimeError _ => [GatewayOp.getByName containerName]

/-- The iterations payload a gateway operation carries, if any:
`containers.run` passes `ITERATIONS: str(iterations)` and the detached
`java` exec passes the same environment. -/
def op_iterations (op : GatewayOp) : Option String :=
  match op with
  | .createRun spec => some spec.envIterations
  | .execDetachedJava _ its => some its
  | _ => none

/-- What a launch attempt reports through `status_text`. -/
inductive LaunchReport where
  | buttonDisabled
  | buildFailed (msg : String)
  | execFailed (msg : String)
  | unexpectedError (msg : String)
  | startedOk (tag : String)
deriving DecidableEq

/-- Result of a launch attempt: session state, persisted file, report, and
the trace of gateway operations issued. -/
structure LaunchResult where
  session : SessionState
  file : FileContent
  report : LaunchReport
  ops : List GatewayOp
deriving DecidableEq

/-- `_execute_java_app(manager, status_text, log_message, iterations,
host_log_file)`: unpack `container, action =
manager.get_or_create_container(...)` — when that returns `None` the
unpacking raises `TypeError`, landing in the `except Exception` handler
(error shown, `is_running = False`, state cleared), the same handler any
escaped runtime exception lands in; otherwise run
`manager.execute_java_app(...)`; on success set the session fields,
`save_process_state(None, host_log_file, start_time, True,
manager.container_name)` and report success; on failure show the error,
set `is_running = False` and `clear_process_state()`. -/
def execute_java_app_ui (ss : SessionState) (file : FileContent)
    (lookup : ContainerLookup) (createErr execErr : Option String)
    (log_message : String) (iterations : Int) (host_log_file now : String) :
    LaunchResult :=
  match get_or_create_container lookup log_message iterations host_log_file createErr with
  | .raised m =>
      ⟨{ ss with is_running := false }, clear_process_state file,
        LaunchReport.unexpectedError m,
        resolve_ops lookup log_message iterations host_log_file⟩
  | .fallThroughNone =>
      ⟨{ ss with is_running := false }, clear_process_state file,
        LaunchReport.unexpectedError "cannot unpack non-iterable NoneType object",
        resolve_ops lookup log_message iterations host_log_file⟩
  | .ok _tag _ =>
      match execute_java_app execErr with
      | (true, _) =>
          ⟨{ ss with
              process_pid := none
              is_running := true
              log_file := some host_log_file
              start_time := some now
              container_name := containerName },
            FileContent.valid ⟨none, host_log_file, now, true, containerName⟩,
            LaunchReport.startedOk _tag,
            resolve_ops lookup log_message iterations host_log_file ++
              [GatewayOp.execDetachedJava log_message (toString iterations)]⟩
      | (false, m) =>
          ⟨{ ss with is_running := false }, clear_process_state file,
            LaunchReport.execFailed m,
            resolve_ops lookup log_message iterations host_log_file ++
              [GatewayOp.execDetachedJava log_message (toString iterations)]⟩

/-- `_render_build_run_button(manager, log_message, iterations)` when the
button is pressed: the button is disabled while
`st.session_state.is_running`; otherwise prepare the log file, call
`manager.build_image(java_app_dir)`; on failure show the error, set
`is_running = False` and `clear_process_state()`; on success continue
with `_execute_java_app`. -/
def render_build_run_button (ss : SessionState) (file : FileContent)
    (build : BuildOutcome) (lookup : ContainerLookup)
    (createErr execErr : Option String) (log_message : String)
    (iterations : Int) (host_log_file now : String) : LaunchResult :=
  if ss.is_running then
    ⟨ss, file, LaunchReport.buttonDisabled, []⟩
  else
    match build_image build with
    | (true, _) =>
        let r := execute_java_app_ui ss file lookup createErr execErr
                   log_message iterations host_log_file now
        { r with ops := GatewayOp.buildImage java_app_dir "java-dummy-app" :: r.ops }
    | (false, m) =>
        ⟨{ ss with is_running := false }, clear_process_state file,
          LaunchReport.buildFailed m,
          [GatewayOp.buildImage java_app_dir "java-dummy-app"]⟩

/-- Model of the Streamlit widget contract behind
`st.number_input("Iterations", min_value=1, max_value=400, value=20)`:
the widget only ever hands the app a value within its `min_value` /
`max_value` bounds; an out-of-range entry is refused by the widget and
the field keeps its current (default) value. -/
def number_input (minVal maxVal default requested : Int) : Int :=
  if minVal ≤ requested ∧ requested ≤ maxVal then requested else default

/-- `_render_input_fields`' iterations widget:
`st.number_input("Iterations", min_value=1, max_value=400, value=20)`. -/
def render_input_iterations (requested : Int) : Int :=
  number_input 1 400 20 requested

/-- The launch path as wired in `render_java_container_section`: iterations
come from `_render_input_fields` (the bounded widget) and flow into
`_render_build_run_button`. -/
def launch_pipeline (ss : SessionState) (file : FileContent)
    (build : BuildOutcome) (lookup : ContainerLookup)
    (createErr execErr : Option String) (log_message : String)
    (requested : Int) (host_log_file now : String) : LaunchResult :=
  render_build_run_button ss file build lookup createErr execErr
    log_message (render_input_iterations requested) host_log_file now

/-! Shared concrete sample values used by witnesses and counterexamples. -/

/-- A persisted snapshot as `_execute_java_app` writes it on success. -/
def sampleState : ProcessState :=
  ⟨none, "java_app/app_host.log", "2026-10-12 00:00:00", true, containerName⟩

/-- The session state of a controller that believes a run is active. -/
def sampleActiveSession : SessionState :=
  ⟨none, true, some "java_app/app_host.log", some "2026-10-12 00:00:00", containerName⟩

/-- Ground truth in which the container is running and the `pgrep` probe
succeeds with exit code 0. -/
def sampleRunningTruth : GroundTruth :=
  ⟨ContainerLookup.found "running", ContainerLookup.found "running",
   ExecOutcome.result 0 "123"⟩

/-- Ground truth in which the container has vanished. -/
def sampleGoneTruth : GroundTruth :=
  ⟨ContainerLookup.notFound, ContainerLookup.notFound,
   ExecOutcome.raisedError "404 not found"⟩

/-- C3: The container-resolution step of `launch` is exhaustive and
deterministic over the three container statuses: `Running` (status string
`"running"`) reuses the container with tag `"reused"`, `Stopped`
(`"exited"`) starts it with tag `"started"`, and `Absent` (NotFound)
creates and starts it via `containers.run` with environment
`{LOG_MESSAGE, ITERATIONS}` and a bind-mount of the host log file at
`/app/app.log`, with tag `"created"`; each of the three statuses maps to
exactly one of these actions. -/
theorem container_resolution_decision_table (cs : ContainerStatus)
    (log_message : String) (iterations : Int) (host_log_file : String) :
    get_or_create_container (tri_lookup cs) log_message iterations host_log_file none =
      (match cs with
       | .running => ResolveResult.ok "reused" none
       | .stopped => ResolveResult.ok "started" none
       | .absent =>
           ResolveResult.ok "created"
             (some ⟨"java-dummy-app", containerName, log_message,
                    toString iterations, host_log_file, "/app/app.log", "rw"⟩)) := by
  cases cs <;> rfl

/-- C6 counterexample: a runtime-connection failure is not surfaced as a
distinct `RuntimeUnavailable` failure — `get_container_status` silently
maps it to `None`, the very value that encodes `Absent` (NotFound); and a
container found with status `"paused"` is returned as the raw string
`"paused"`, not classified into `{Stopped, Running}`. -/
theorem runtime_error_silently_mapped_counterexample :
    get_container_status (ContainerLookup.runtimeError "connection refused") = none ∧
    get_container_status ContainerLookup.notFound = none ∧
    get_container_status (ContainerLookup.found "paused") = some "paused" :=
  ⟨rfl, rfl, rfl⟩

/-- C6 amended: `get_container_status` returns `None` exactly when the
lookup raised NotFound or any other exception (a runtime-connection
failure is silently folded into the `None`/Absent answer rather than
failing); when a container is found, the runtime-reported status string is
returned raw, unclassified; `is_container_running` classifies Running as
the returned status being exactly `"running"`. -/
theorem container_status_classification_amended (lookup : ContainerLookup) :
    (get_container_status lookup = none ↔
      lookup = ContainerLookup.notFound ∨
        ∃ m, lookup = ContainerLookup.runtimeError m) ∧
    (∀ s, get_container_status (ContainerLookup.found s) = some s) ∧
    is_container_running lookup = (get_container_status lookup == some "running") := by
  refine ⟨?_, fun s => rfl, rfl⟩
  cases lookup <;> simp [get_container_status]

/-- C6 amended, witness at concrete inputs. -/
theorem container_status_classification_amended_witness :
    get_container_status (ContainerLookup.runtimeError "boom") = none ∧
    is_container_running (ContainerLookup.found "running") = true :=
  ⟨(container_status_classification_amended
      (ContainerLookup.runtimeError "boom")).1.mpr (Or.inr ⟨"boom", rfl⟩),
   by
     rw [(container_status_classification_amended (ContainerLookup.found "running")).2.2]
     decide⟩

/-- C7: The workload-liveness probe `is_java_process_running` reports the
process as running exactly when the container lookup found a container and
the `pgrep` exec returned exit code 0; every error — NotFound, any other
lookup exception, or an exception raised by the exec itself — yields the
probe-negative `False`, never a propagated error. -/
theorem probe_errors_are_negative (lookup : ContainerLookup) (probe : ExecOutcome) :
    (is_java_process_running lookup probe = true ↔
      ∃ s out, lookup = ContainerLookup.found s ∧
        probe = ExecOutcome.result 0 out) ∧
    (lookup = ContainerLookup.notFound ∨
      (∃ m, lookup = ContainerLookup.runtimeError m) ∨
      (∃ m, probe = ExecOutcome.raisedError m) →
      is_java_process_running lookup probe = false) := by
  constructor
  · cases lookup with
    | found s =>
        cases probe with
        | result c out =>
            simp only [is_java_process_running, beq_iff_eq]
            constructor
            · intro hc
              exact ⟨s, out, rfl, by rw [hc]⟩
            · rintro ⟨s2, out2, h1, h2⟩
              injection h2 with h3 h4
        | raisedError m => simp [is_java_process_running]
    | notFound => cases probe <;> simp [is_java_process_running]
    | runtimeError m => cases probe <;> simp [is_java_process_running]
  · intro h
    cases lookup <;> cases probe <;> simp_all [is_java_process_running]

/-- C7, witness at concrete inputs. -/
theorem probe_errors_are_negative_witness :
    is_java_process_running ContainerLookup.notFound (ExecOutcome.result 0 "123") = false ∧
    is_java_process_running (ContainerLookup.found "running")
      (ExecOutcome.result 0 "123") = true :=
  ⟨(probe_errors_are_negative ContainerLookup.notFound
      (ExecOutcome.result 0 "123")).2 (Or.inl rfl),
   (probe_errors_are_negative (ContainerLookup.found "running")
      (ExecOutcome.result 0 "123")).1.mpr ⟨"running", "123", rfl, rfl⟩⟩

/-- C8 counterexample: `save_process_state` performs no rename at all — it
opens the live state file with mode `'w'` (truncating it in place) and
writes the JSON into it directly, so the write is not a
write-to-temp-then-rename atomic replace. -/
theorem save_write_not_temp_then_rename_counterexample :
    uses_rename (save_process_state_ops none "java_app/app_host.log"
      "2026-10-12 00:00:00" true (some containerName)) = false ∧
    save_process_state_ops none "java_app/app_host.log" "2026-10-12 00:00:00" true
      (some containerName) =
      [FsOp.makeDirs java_app_dir, FsOp.openTruncateWrite state_file,
       FsOp.writeJson state_file sampleState] :=
  ⟨rfl, rfl⟩

/-- C8 amended: every write of the persisted state truncates the live state
file and writes the whole JSON object into it directly (no temporary file,
no rename); the crash-degradation property holds only at read time:
`load_process_state` turns an unparseable (partially written) or missing
file into "no persisted state". -/
theorem save_direct_write_reader_degrades (pid : Option Nat)
    (log_file start_time : String) (running : Bool) (cn : Option String) :
    uses_rename (save_process_state_ops pid log_file start_time running cn) = false ∧
    save_process_state_ops pid log_file start_time running cn =
      [FsOp.makeDirs java_app_dir, FsOp.openTruncateWrite state_file,
       FsOp.writeJson state_file
         ⟨pid, log_file, start_time, running, cn.getD containerName⟩] ∧
    load_process_state FileContent.corrupt = none ∧
    load_process_state FileContent.absent = none :=
  ⟨rfl, rfl, rfl, rfl⟩

/-- C2 counterexample: a stop pressed while a run is believed Active, where
the container lookup inside `stop_java_app` raises (a Gateway failure),
leaves the persisted state file in place — it is not cleared. -/
theorem stop_gateway_failure_keeps_state_counterexample :
    (render_stop_button sampleActiveSession (FileContent.valid sampleState)
       (ContainerLookup.runtimeError "runtime unavailable") none).2.1 =
      FileContent.valid sampleState ∧
    (stop_java_app (ContainerLookup.runtimeError "runtime unavailable") none).1 =
      false :=
  ⟨rfl, rfl⟩

/-- C2 amended: the stop handler clears the persisted state (and the Active
belief) exactly when `stop_java_app` reports success; when the kill
command fails at the Gateway level, only an error is displayed and both
the session belief and the persisted state are left untouched. -/
theorem stop_clears_state_only_on_success (ss : SessionState) (file : FileContent)
    (lookup : ContainerLookup) (killExecErr : Option String) :
    ((stop_java_app lookup killExecErr).1 = true →
       render_stop_button ss file lookup killExecErr =
         ({ ss with is_running := false }, FileContent.absent, true)) ∧
    ((stop_java_app lookup killExecErr).1 = false →
       render_stop_button ss file lookup killExecErr = (ss, file, false)) := by
  constructor <;> intro h <;> cases lookup <;> cases killExecErr <;>
    simp_all [stop_java_app, render_stop_button, clear_process_state]

/-- C2 amended, witness at concrete inputs: a successful stop clears the
state; a stop whose container lookup raises NotFound leaves it. -/
theorem stop_clears_state_only_on_success_witness :
    render_stop_button sampleActiveSession (FileContent.valid sampleState)
      (ContainerLookup.found "running") none =
      ({ sampleActiveSession with is_running := false }, FileContent.absent, true) ∧
    render_stop_button sampleActiveSession (FileContent.valid sampleState)
      ContainerLookup.notFound none =
      (sampleActiveSession, FileContent.valid sampleState, false) :=
  ⟨(stop_clears_state_only_on_success sampleActiveSession
      (FileContent.valid sampleState) (ContainerLookup.found "running") none).1 rfl,
   (stop_clears_state_only_on_success sampleActiveSession
      (FileContent.valid sampleState) ContainerLookup.notFound none).2 rfl⟩

/-- C1: A read cycle reports the run as Active (`runningInfo`) only when,
within that same cycle, both freshly fetched ground-truth checks passed:
the container status check and the in-container workload probe; and
whenever the cycle starts with belief `is_running = true` and either
ground-truth check fails, the cycle ends with the belief set to
not-running and the persisted state cleared. -/
theorem active_report_requires_fresh_validation (ss : SessionState)
    (gt : GroundTruth) (file : FileContent) :
    ((render_cycle ss gt file).report = CycleReport.runningInfo →
       is_container_running gt.statusLookup = true ∧
       is_java_process_running gt.probeLookup gt.probeExec = true) ∧
    (ss.is_running = true →
       (is_container_running gt.statusLookup = false ∨
        is_java_process_running gt.probeLookup gt.probeExec = false) →
       (render_cycle ss gt file).session.is_running = false ∧
       (render_cycle ss gt file).file = FileContent.absent) := by
  cases hc : is_container_running gt.statusLookup <;>
    cases hj : is_java_process_running gt.probeLookup gt.probeExec <;>
      cases hr : ss.is_running <;>
        cases hn : ss.container_name != "" <;>
          simp_all [render_cycle, render_running_state, clear_process_state]

/-- C1, witness: with ground truth all-running an Active report implies both
checks passed; with the container gone, an Active belief is corrected and
the state cleared. -/
theorem active_report_requires_fresh_validation_witness :
    (is_container_running sampleRunningTruth.statusLookup = true ∧
     is_java_process_running sampleRunningTruth.probeLookup
       sampleRunningTruth.probeExec = true) ∧
    ((render_cycle sampleActiveSession sampleGoneTruth
        (FileContent.valid sampleState)).session.is_running = false ∧
     (render_cycle sampleActiveSession sampleGoneTruth
        (FileContent.valid sampleState)).file = FileContent.absent) :=
  ⟨(active_report_requires_fresh_validation sampleActiveSession sampleRunningTruth
      (FileContent.valid sampleState)).1 rfl,
   (active_report_requires_fresh_validation sampleActiveSession sampleGoneTruth
      (FileContent.valid sampleState)).2 rfl (Or.inl rfl)⟩

/-- C5: A launch attempt (pressed while no run is active) that fails at the
image-build step reports the build failure and leaves no persisted state;
one that reaches a resolved container but fails at the detached workload
exec reports the exec failure and likewise leaves no persisted state. -/
theorem launch_failure_leaves_no_persisted_state (ss : SessionState)
    (file : FileContent) (build : BuildOutcome) (lookup : ContainerLookup)
    (createErr execErr : Option String) (log_message : String)
    (iterations : Int) (host_log_file now : String)
    (hready : ss.is_running = false) :
    ((build_image build).1 = false →
       (render_build_run_button ss file build lookup createErr execErr log_message
          iterations host_log_file now).file = FileContent.absent ∧
       (render_build_run_button ss file build lookup createErr execErr log_message
          iterations host_log_file now).report =
         LaunchReport.buildFailed (build_image build).2) ∧
    (∀ m tag c, build = BuildOutcome.success → execErr = some m →
       get_or_create_container lookup log_message iterations host_log_file
         createErr = ResolveResult.ok tag c →
       (render_build_run_button ss file build lookup createErr execErr log_message
          iterations host_log_file now).file = FileContent.absent ∧
       (render_build_run_button ss file build lookup createErr execErr log_message
          iterations host_log_file now).report =
         LaunchReport.execFailed ("Failed to execute: " ++ m)) := by
  constructor
  · intro hb
    cases build <;>
      simp_all [build_image, render_build_run_button, clear_process_state]
  · intro m tag c hbuild hexec hres
    subst hbuild
    subst hexec
    simp [render_build_run_button, hready, build_image, execute_java_app_ui,
      hres, execute_java_app, clear_process_state]

/-- C5, witness: a concrete build failure and a concrete exec failure each
leave the persisted state absent. -/
theorem launch_failure_leaves_no_persisted_state_witness :
    (render_build_run_button ⟨none, false, none, none, containerName⟩
       (FileContent.valid sampleState) (BuildOutcome.buildError "bad Dockerfile")
       ContainerLookup.notFound none none "hi" 5 "java_app/app_host.log"
       "2026-10-12 00:00:00").file = FileContent.absent ∧
    (render_build_run_button ⟨none, false, none, none, containerName⟩
       (FileContent.valid sampleState) BuildOutcome.success
       (ContainerLookup.found "running") none (some "transport down") "hi" 5
       "java_app/app_host.log" "2026-10-12 00:00:00").file = FileContent.absent :=
  ⟨((launch_failure_leaves_no_persisted_state ⟨none, false, none, none, containerName⟩
       (FileContent.valid sampleState) (BuildOutcome.buildError "bad Dockerfile")
       ContainerLookup.notFound none none "hi" 5 "java_app/app_host.log"
       "2026-10-12 00:00:00" rfl).1 rfl).1,
   ((launch_failure_leaves_no_persisted_state ⟨none, false, none, none, containerName⟩
       (FileContent.valid sampleState) BuildOutcome.success
       (ContainerLookup.found "running") none (some "transport down") "hi" 5
       "java_app/app_host.log" "2026-10-12 00:00:00" rfl).2 "transport down"
       "reused" none rfl rfl rfl).1⟩

/-- C10: When the named container exists with a runtime status that is
neither `"running"` nor `"exited"`, `get_or_create_container` falls
through returning Python `None` (no container, no action tag); the caller
`_execute_java_app` then fails unpacking the result, lands in its
exception handler, clears the persisted state, and never issues the
detached workload exec. -/
theorem unhandled_status_falls_through (s : String) (hs1 : s ≠ "running")
    (hs2 : s ≠ "exited") (ss : SessionState) (file : FileContent)
    (createErr execErr : Option String) (log_message : String)
    (iterations : Int) (host_log_file now : String) :
    get_or_create_container (ContainerLookup.found s) log_message iterations
      host_log_file createErr = ResolveResult.fallThroughNone ∧
    (execute_java_app_ui ss file (ContainerLookup.found s) createErr execErr
       log_message iterations host_log_file now).report =
      LaunchReport.unexpectedError "cannot unpack non-iterable NoneType object" ∧
    (execute_java_app_ui ss file (ContainerLookup.found s) createErr execErr
       log_message iterations host_log_file now).file = FileContent.absent ∧
    ((execute_java_app_ui ss file (ContainerLookup.found s) createErr execErr
        log_message iterations host_log_file now).ops.all fun op =>
        match op with
        | GatewayOp.execDetachedJava _ _ => false
        | _ => true) = true := by
  have hg : get_or_create_container (ContainerLookup.found s) log_message
      iterations host_log_file createErr = ResolveResult.fallThroughNone := by
    simp [get_or_create_container, hs1, hs2]
  refine ⟨hg, ?_, ?_, ?_⟩ <;>
    simp [execute_java_app_ui, hg, resolve_ops, clear_process_state, hs2]

/-- C10, witness at the concrete status `"paused"`. -/
theorem unhandled_status_falls_through_witness :
    get_or_create_container (ContainerLookup.found "paused") "hi" 5
      "java_app/app_host.log" none = ResolveResult.fallThroughNone ∧
    (execute_java_app_ui sampleActiveSession (FileContent.valid sampleState)
       (ContainerLookup.found "paused") none none "hi" 5 "java_app/app_host.log"
       "2026-10-12 00:00:00").file = FileContent.absent :=
  ⟨(unhandled_status_falls_through "paused" (by decide) (by decide)
      sampleActiveSession (FileContent.valid sampleState) none none "hi" 5
      "java_app/app_host.log" "2026-10-12 00:00:00").1,
   (unhandled_status_falls_through "paused" (by decide) (by decide)
      sampleActiveSession (FileContent.valid sampleState) none none "hi" 5
      "java_app/app_host.log" "2026-10-12 00:00:00").2.2.1⟩

/-- Whether a gateway operation's iterations payload (if it carries one)
equals the given string. -/
def op_uses_iterations_string (s : String) (op : GatewayOp) : Bool :=
  match op_iterations op with
  | some t => t == s
  | none => true

theorem resolve_ops_iterations (lookup : ContainerLookup) (log_message : String)
    (iterations : Int) (host_log_file : String) :
    ((resolve_ops lookup log_message iterations host_log_file).all
      (op_uses_iterations_string (toString iterations))) = true := by
  cases lookup with
  | found s =>
      by_cases hs : s = "exited" <;>
        simp [resolve_ops, hs, op_uses_iterations_string, op_iterations]
  | notFound => simp [resolve_ops, op_uses_iterations_string, op_iterations]
  | runtimeError m => simp [resolve_ops, op_uses_iterations_string, op_iterations]

theorem execute_ui_ops_iterations (ss : SessionState) (file : FileContent)
    (lookup : ContainerLookup) (createErr execErr : Option String)
    (log_message : String) (iterations : Int) (host_log_file now : String) :
    ((execute_java_app_ui ss file lookup createErr execErr log_message iterations
        host_log_file now).ops.all
      (op_uses_iterations_string (toString iterations))) = true := by
  cases hg : get_or_create_container lookup log_message iterations host_log_file
      createErr with
  | ok tag c =>
      cases execErr <;>
        simp [execute_java_app_ui, hg, execute_java_app, List.all_append,
          resolve_ops_iterations, op_uses_iterations_string, op_iterations]
  | fallThroughNone => simp [execute_java_app_ui, hg, resolve_ops_iterations]
  | raised m => simp [execute_java_app_ui, hg, resolve_ops_iterations]

/-- C9: Iterations reach the launch path only through the bounded input
widget (`min_value=1, max_value=400, value=20`): whatever value the
operator requests, every gateway operation the launch attempt issues that
carries an iterations payload carries the widget's value, that value lies
within `[1, 400]`, and an out-of-range request such as 401 is refused by
the widget (the field keeps its in-range value), so no gateway operation
is ever issued for it. -/
theorem launch_iterations_bounded (ss : SessionState) (file : FileContent)
    (build : BuildOutcome) (lookup : ContainerLookup)
    (createErr execErr : Option String) (log_message : String)
    (requested : Int) (host_log_file now : String) :
    ((launch_pipeline ss file build lookup createErr execErr log_message requested
        host_log_file now).ops.all
      (op_uses_iterations_string (toString (render_input_iterations requested)))) =
      true ∧
    (1 ≤ render_input_iterations requested ∧
      render_input_iterations requested ≤ 400) ∧
    (¬(1 ≤ requested ∧ requested ≤ 400) → render_input_iterations requested = 20) := by
  refine ⟨?_, ?_, ?_⟩
  · by_cases hr : ss.is_running
    · simp [launch_pipeline, render_build_run_button, hr]
    · cases build with
      | success =>
          simp [launch_pipeline, render_build_run_button, hr, build_image,
            op_uses_iterations_string, op_iterations, execute_ui_ops_iterations]
      | buildError m =>
          simp [launch_pipeline, render_build_run_button, hr, build_image,
            op_uses_iterations_string, op_iterations]
      | otherError m =>
          simp [launch_pipeline, render_build_run_button, hr, build_image,
            op_uses_iterations_string, op_iterations]
  · unfold render_input_iterations number_input
    split_ifs with h
    · omega
    · omega
  · intro h
    unfold render_input_iterations number_input
    rw [if_neg h]

/-- C9, witness at the boundary request 401: the widget keeps 20, which is
what every iterations-carrying gateway operation of the attempt carries. -/
theorem launch_iterations_bounded_witness :
    ((launch_pipeline ⟨none, false, none, none, containerName⟩ FileContent.absent
        BuildOutcome.success ContainerLookup.notFound none none "hi" 401
        "java_app/app_host.log" "2026-10-12 00:00:00").ops.all
      (op_uses_iterations_string (toString (render_input_iterations 401)))) = true ∧
    render_input_iterations 401 = 20 :=
  ⟨(launch_iterations_bounded ⟨none, false, none, none, containerName⟩
      FileContent.absent BuildOutcome.success ContainerLookup.notFound none none
      "hi" 401 "java_app/app_host.log" "2026-10-12 00:00:00").1,
   (launch_iterations_bounded ⟨none, false, none, none, containerName⟩
      FileContent.absent BuildOutcome.success ContainerLookup.notFound none none
      "hi" 401 "java_app/app_host.log" "2026-10-12 00:00:00").2.2 (by decide)⟩

/-- Ground truth says the workload is running: the container status check
and the in-container probe both pass. -/
def ground_truth_running (gt : GroundTruth) : Bool :=
  is_container_running gt.statusLookup &&
    is_java_process_running gt.probeLookup gt.probeExec

theorem launch_success_writes_state (ss : SessionState) (file : FileContent)
    (lookup : ContainerLookup) (createErr execErr : Option String)
    (log_message : String) (iterations : Int) (host_log_file now tag : String)
    (h : (execute_java_app_ui ss file lookup createErr execErr log_message
            iterations host_log_file now).report = LaunchReport.startedOk tag) :
    (execute_java_app_ui ss file lookup createErr execErr log_message iterations
        host_log_file now).file =
      FileContent.valid ⟨none, host_log_file, now, true, containerName⟩ := by
  cases hg : get_or_create_container lookup log_message iterations host_log_file
      createErr with
  | ok tag2 c =>
      cases execErr <;> simp_all [execute_java_app_ui, hg, execute_java_app]
  | fallThroughNone => simp_all [execute_java_app_ui, hg]
  | raised m => simp_all [execute_java_app_ui, hg]

/-- C4: Round-trip of persisted state. When a launch attempt succeeds
(reports `startedOk`), it persists the Active snapshot; a fresh controller
instance that initializes from that snapshot and runs one poll cycle ends
Active (report `runningInfo`, belief and file intact) if ground truth says
the workload is Running; otherwise it clears the persisted state, sets the
belief to not-running, and reports a completion exactly once — the
immediately following cycle reports no further completion. -/
theorem persisted_state_round_trip (ss : SessionState) (file : FileContent)
    (lookup : ContainerLookup) (createErr execErr : Option String)
    (log_message : String) (iterations : Int) (host_log_file now tag : String)
    (gt gt2 : GroundTruth)
    (h : (execute_java_app_ui ss file lookup createErr execErr log_message
            iterations host_log_file now).report = LaunchReport.startedOk tag) :
    (ground_truth_running gt = true →
       (fresh_poll (execute_java_app_ui ss file lookup createErr execErr
           log_message iterations host_log_file now).file gt).report =
         CycleReport.runningInfo ∧
       (fresh_poll (execute_java_app_ui ss file lookup createErr execErr
           log_message iterations host_log_file now).file gt).session.is_running =
         true ∧
       (fresh_poll (execute_java_app_ui ss file lookup createErr execErr
           log_message iterations host_log_file now).file gt).file =
         (execute_java_app_ui ss file lookup createErr execErr log_message
           iterations host_log_file now).file) ∧
    (ground_truth_running gt = false →
       (fresh_poll (execute_java_app_ui ss file lookup createErr execErr
           log_message iterations host_log_file now).file gt).session.is_running =
         false ∧
       (fresh_poll (execute_java_app_ui ss file lookup createErr execErr
           log_message iterations host_log_file now).file gt).file =
         FileContent.absent ∧
       is_completion_report
         (fresh_poll (execute_java_app_ui ss file lookup createErr execErr
             log_message iterations host_log_file now).file gt).report = true ∧
       is_completion_report
         (render_cycle
           (fresh_poll (execute_java_app_ui ss file lookup createErr execErr
               log_message iterations host_log_file now).file gt).session gt2
           (fresh_poll (execute_java_app_ui ss file lookup createErr execErr
               log_message iterations host_log_file now).file gt).file).report =
         false) := by
  rw [launch_success_writes_state ss file lookup createErr execErr log_message
    iterations host_log_file now tag h]
  cases hc : is_container_running gt.statusLookup <;>
    cases hj : is_java_process_running gt.probeLookup gt.probeExec <;>
      simp_all [fresh_poll, render_cycle, render_running_state,
        init_session_state, load_process_state, clear_process_state,
        ground_truth_running, is_completion_report, containerName]

/-- C4, witness: a concrete successful launch (container Absent, create and
exec succeed) followed by a fresh-instance poll — with ground truth
running the poll stays Active; with the container gone it clears the state
and reports a completion. -/
theorem persisted_state_round_trip_witness :
    ((fresh_poll (execute_java_app_ui ⟨none, false, none, none, containerName⟩
        FileContent.absent ContainerLookup.notFound none none "hi" 5
        "java_app/app_host.log" "2026-10-12 00:00:00").file
      sampleRunningTruth).report = CycleReport.runningInfo) ∧
    ((fresh_poll (execute_java_app_ui ⟨none, false, none, none, containerName⟩
        FileContent.absent ContainerLookup.notFound none none "hi" 5
        "java_app/app_host.log" "2026-10-12 00:00:00").file
      sampleGoneTruth).file = FileContent.absent) :=
  ⟨((persisted_state_round_trip ⟨none, false, none, none, containerName⟩
      FileContent.absent ContainerLookup.notFound none none "hi" 5
      "java_app/app_host.log" "2026-10-12 00:00:00" "created" sampleRunningTruth
      sampleGoneTruth rfl).1 rfl).1,
   ((persisted_state_round_trip ⟨none, false, none, none, containerName⟩
      FileContent.absent ContainerLookup.notFound none none "hi" 5
      "java_app/app_host.log" "2026-10-12 00:00:00" "created" sampleGoneTruth
      sampleRunningTruth rfl).2 rfl).2.1⟩

end JavaAppMonitoring
